import Mathlib

/-!
Shallow embedding of the core of `workout_reorganizer.py` (WorkoutOrganizer):
the canary-snapshot classifier, layout-dependent description extraction,
name translation and skip lookup, destination-title construction, redaction
call planning, the retry policy, and a state model of `process_sheet`'s
failure handling.  Strings are modelled as Lean `String` (code points match
Python's `len`/slicing), and the remote spreadsheet service is modelled by
explicit outcome oracles.
-/

/-- A canary snapshot as returned by `sheet.batch_get(["A1","B1","B2","B3","B4"])`:
a list of five cells, each cell a list of rows of strings (`[]` for an empty
cell, `[[v]]` for a cell holding value `v`). -/
abbrev Snapshot := List (List (List String))

/-- Well-formedness of a snapshot as `gspread` produces it: exactly five
cells, each either empty (`[]`) or a single one-value row (`[[v]]`). -/
def wfSnapshot (canary_cells : Snapshot) : Bool :=
  canary_cells.length == 5 &&
    canary_cells.all (fun cell =>
      match cell with
      | [] => true
      | [row] => row.length == 1
      | _ => false)

/-- `get_value_at_location`: the value at the given cell position, `""` when
the cell is empty (mirrors `canary_cells[location][0][0]` behind the
truthiness guard). -/
def get_value_at_location (canary_cells : Snapshot) (location : Nat) : String :=
  match canary_cells.getD location [] with
  | [] => ""
  | row :: _ => row.headD ""

/-- `flatten_3d_list`: flatten the snapshot into a flat list of strings. -/
def flatten_3d_list (data : Snapshot) : List String :=
  data.flatMap (fun sublist1 => sublist1.flatMap (fun sublist2 => sublist2))

/-- Python `pat in s` substring test, via `splitOn`: a non-empty pattern
occurs in `s` iff splitting on it yields more than one piece. -/
def containsSub (s pat : String) : Bool :=
  (s.splitOn pat).length != 1

/-- `get_workout_description`: the description read from B2 (position 2,
new layout) when the canary cell A1 (position 0) is non-empty, else from
B4 (position 4, old layout). -/
def get_workout_description (canary_cells : Snapshot) : String :=
  let canary_cell_location := 0
  let new_description_location := 2
  let old_description_location := 4
  let canary_cell_value := get_value_at_location canary_cells canary_cell_location
  let newer_description := get_value_at_location canary_cells new_description_location
  let older_description := get_value_at_location canary_cells old_description_location
  if canary_cell_value == "" then older_description else newer_description

/-- `is_valid_workout`: a sheet is invalid when A1 holds the blank-template
marker `"Name: "`, or the description contains `"Foundation 1"`, or every
canary cell is blank.  The A1 extraction is inlined as in the source. -/
def is_valid_workout (canary_cells : Snapshot) (previous_description : String) : Bool :=
  let canary_cell_value :=
    match canary_cells.getD 0 [] with
    | [] => ""
    | row :: _ => row.headD ""
  let completely_blank := !((flatten_3d_list canary_cells).any (fun s => !(s == "")))
  let is_foundation_workout := containsSub previous_description "Foundation 1"
  if canary_cell_value == "Name: " || is_foundation_workout || completely_blank then
    false
  else
    true

/-- A row of the translation table (`SpreadsheetRow` in `spreadsheet.py` /
`workout_reorganizer.py`): original source title, destination description,
and the resolved skip flag. -/
structure SpreadsheetRow where
  original_name : String
  description : String
  skip : Bool
deriving DecidableEq

/-- `SpreadsheetRow.should_skip`: the raw `Skip?` column maps to `true`
exactly when it is non-empty and lower-cases to `"y"`. -/
def should_skip (skip : String) : Bool :=
  if skip != "" then
    if skip.toLower == "y" then true else false
  else false

/-- The `SpreadsheetRow` constructor: the skip column string is resolved
through `should_skip`. -/
def SpreadsheetRow.fromStrings (original_name description skip : String) : SpreadsheetRow :=
  ⟨original_name, description, should_skip skip⟩

/-- `translate_workout_name`: description of the first table row whose
`original_name` equals the source title; falls back to the source title when
there is no match, and also (Python truthiness) when the matched description
is the empty string. -/
def translate_workout_name (source_title : String) (translated_data : List SpreadsheetRow) : String :=
  let translated_name :=
    (translated_data.find? (fun item => item.original_name == source_title)).map
      (fun item => item.description)
  match translated_name with
  | some d => if d == "" then source_title else d
  | none => source_title

/-- `should_process_spreadsheet`: linear scan of the translation table; the
first row matching the spreadsheet title decides (negation of its skip
flag); no match means skip (`false`). -/
def should_process_spreadsheet (spreadsheet_title : String) : List SpreadsheetRow → Bool
  | [] => false
  | translation :: rest =>
    if translation.original_name == spreadsheet_title then !translation.skip
    else should_process_spreadsheet spreadsheet_title rest

/-- Per-character worker for Python `str.title()`: a letter following a
non-letter is uppercased, a letter following a letter is lowercased. -/
def titleAux : Bool → List Char → List Char
  | _, [] => []
  | prevAlpha, c :: cs =>
    (if prevAlpha then c.toLower else c.toUpper) :: titleAux c.isAlpha cs

/-- Python `str.title()` (ASCII letters model). -/
def pyTitle (s : String) : String :=
  ⟨titleAux false s.data⟩

/-- Python slicing `s[:n]` on code points. -/
def pySlice (s : String) (n : Nat) : String :=
  ⟨s.data.take n⟩

/-- `get_dest_spreadsheet_title`: `description + " - " + translated title`,
truncated to 175 code points when longer, then the 1-based sheet position
appended after a space, then title-cased.  `sheet_index` is the 0-based
`sheet.index`. -/
def get_dest_spreadsheet_title (source_title : String) (sheet_index : Nat)
    (previous_description : String) (translated_data : List SpreadsheetRow) : String :=
  let translated_source_title := translate_workout_name source_title translated_data
  let count := sheet_index + 1
  let name0 := previous_description ++ " - " ++ translated_source_title
  let name1 := if name0.length > 175 then pySlice name0 175 else name0
  let name2 := name1 ++ " " ++ toString count
  pyTitle name2

/-- A remote write issued by the redactor. -/
inductive RedactCall
  | batch_update (range : String) (values : List (List String))
  | update_cell (row col : Nat) (value : String)
deriving DecidableEq

/-- `delete_client_data` as the list of remote writes it issues: clear
B1:D1 when the new-layout name (position 1) is present, else clear B3 when
the old-layout name (position 3) is present, else nothing. -/
def delete_client_data (canary_cells : Snapshot) : List RedactCall :=
  let new_name_location := 1
  let old_name_location := 3
  let old_name := get_value_at_location canary_cells old_name_location
  let new_name := get_value_at_location canary_cells new_name_location
  if new_name != "" then
    [RedactCall.batch_update "B1:D1" [["", "", ""]]]
  else if old_name != "" then
    [RedactCall.update_cell 3 2 ""]
  else
    []

/-- `tenacity.wait_exponential(multiplier, min, max)` at a given attempt
number: `multiplier * 2 ^ attempt` clamped between the floor and the
ceiling. -/
def wait_exponential_val (multiplier mn mx attempt_number : Nat) : Nat :=
  Nat.max (Nat.max 0 mn) (Nat.min (multiplier * 2 ^ attempt_number) mx)

/-- The wait schedule of `common_retry`: `wait_exponential(multiplier=1,
min=1, max=60)`. -/
def common_retry_wait (attempt_number : Nat) : Nat :=
  wait_exponential_val 1 1 60 attempt_number

/-- One retried execution against an outcome oracle: `succeeds k` tells
whether the k-th attempt (1-based) succeeds.  Returns the attempt at which
the call succeeded (`none` if the budget ran out) together with the number
of attempts actually made. -/
def retryGo (succeeds : Nat → Bool) : Nat → Nat → Option Nat × Nat
  | _, 0 => (none, 0)
  | attempt, fuel + 1 =>
    if succeeds attempt then (some attempt, 1)
    else
      let rest := retryGo succeeds (attempt + 1) fuel
      (rest.1, rest.2 + 1)

/-- A call decorated with `common_retry` (`stop_after_attempt(5)`): at most
five attempts, starting at attempt 1. -/
def common_retry_exec (succeeds : Nat → Bool) : Option Nat × Nat :=
  retryGo succeeds 1 5

/-- A remote call site of the program, with whether it is wrapped by the
`common_retry` decorator in the source. -/
structure RemoteCallSite where
  fn : String
  wrapped_in_common_retry : Bool
deriving DecidableEq

/-- The remote call sites of `workout_reorganizer.py` and their decorator
status: every remote helper carries `@common_retry` except
`get_canary_cells` (the canary batch-read, `sheet.batch_get`) and the
compensating `client.del_spreadsheet` call inside `process_sheet`. -/
def remote_call_sites : List RemoteCallSite :=
  [⟨"fetch_list_of_files_in_folder", true⟩,
   ⟨"create_new_spreadsheet", true⟩,
   ⟨"share_spreadsheet", true⟩,
   ⟨"get_canary_cells", false⟩,
   ⟨"copy_workout_to_new_spreadsheet", true⟩,
   ⟨"get_worksheet_from_data", true⟩,
   ⟨"rename_worksheet", true⟩,
   ⟨"delete_empty_sheet1", true⟩,
   ⟨"delete_client_data", true⟩,
   ⟨"process_sheet.del_spreadsheet", false⟩,
   ⟨"append_rows_to_sheet", true⟩,
   ⟨"get_translation_data", true⟩,
   ⟨"get_all_records_for_sheet", true⟩,
   ⟨"open_spreadsheet_by_key", true⟩,
   ⟨"get_client", true⟩,
   ⟨"get_worksheets_in_spreadsheet", true⟩]

/-- Outcome of the `sheet.share` call inside `share_spreadsheet`: success,
an `APIError` (caught and treated as already-shared), or any other
exception (uncaught by the `except APIError` clause). -/
inductive ShareResult
  | ok
  | apiError
  | otherError
deriving DecidableEq

/-- Exception kinds distinguished by the `process_sheet` model. -/
inductive ExnKind
  | attrError
  | remoteError
deriving DecidableEq

/-- Oracle fixing the outcome of each remote step of one migration task
(`true` = the retried call eventually succeeds, `false` = it exhausts its
budget and raises). -/
structure RemoteOracle where
  createOk : Bool
  share : ShareResult
  copyOk : Bool
  getWorksheetOk : Bool
  renameOk : Bool
  deletePlaceholderOk : Bool
  redactOk : Bool
  compensatingDeleteOk : Bool
deriving DecidableEq

/-- `create_and_share_new_spreadsheet`: create failure is caught and yields
`None` (`.ok none`); a share failure other than `APIError` propagates; an
`APIError` from share is caught and the sheet is still returned. -/
def create_and_share_new_spreadsheet (o : RemoteOracle) : Except ExnKind (Option Unit) :=
  if o.createOk then
    match o.share with
    | ShareResult.otherError => Except.error ExnKind.remoteError
    | _ => Except.ok (some ())
  else
    Except.ok none

/-- How one `process_sheet` task terminates. -/
inductive TaskOutcome
  | success
  | failedCopy (e : ExnKind)
  | failedRedactCleaned
  | failedRedactManual
  | escaped (e : ExnKind)
deriving DecidableEq

/-- State of the task's destination document at termination. -/
structure DestState where
  created : Bool
  deleted : Bool
  hasPlaceholder : Bool
  hasCopy : Bool
  copyRenamed : Bool
  redacted : Bool
deriving DecidableEq

/-- No destination document was ever created. -/
def DestState.initial : DestState := ⟨false, false, false, false, false, false⟩

/-- A freshly created destination document: it holds only the
store-created placeholder sheet. -/
def DestState.freshDoc : DestState := ⟨true, false, true, false, false, false⟩

/-- Records present in the destination document (placeholder plus copied
record). -/
def DestState.recordCount (d : DestState) : Nat :=
  (if d.hasPlaceholder then 1 else 0) + (if d.hasCopy then 1 else 0)

/-- `process_sheet`: create-and-share, then the copy `try` (whose first
expression dereferences the possibly-`None` destination, so a missing
destination raises `AttributeError` caught by this same handler), then the
rename/placeholder-delete `try` whose failure is swallowed (`pass`), then
the redaction `try` whose failure triggers the compensating
`del_spreadsheet` (itself fallible, ending in manual cleanup). -/
def process_sheet_model (o : RemoteOracle) : TaskOutcome × DestState :=
  match create_and_share_new_spreadsheet o with
  | Except.error e => (TaskOutcome.escaped e, DestState.freshDoc)
  | Except.ok none => (TaskOutcome.failedCopy ExnKind.attrError, DestState.initial)
  | Except.ok (some _) =>
    let d := DestState.freshDoc
    if !o.copyOk then (TaskOutcome.failedCopy ExnKind.remoteError, d)
    else
      let d := { d with hasCopy := true }
      if !o.getWorksheetOk then (TaskOutcome.failedCopy ExnKind.remoteError, d)
      else
        let d :=
          if !o.renameOk then d
          else
            let d := { d with copyRenamed := true }
            if !o.deletePlaceholderOk then d
            else { d with hasPlaceholder := false }
        if o.redactOk then (TaskOutcome.success, { d with redacted := true })
        else if o.compensatingDeleteOk then
          (TaskOutcome.failedRedactCleaned, { d with deleted := true })
        else
          (TaskOutcome.failedRedactManual, d)

/-- Claim C1 (counterexample): with the destination document created and the
copy step failing, `process_sheet` terminates failed yet never deletes the
destination document — the compensating deletion does not cover the copy
step. -/
theorem C1_counterexample :
    (process_sheet_model ⟨true, ShareResult.ok, false, true, true, true, true, true⟩).1
        = TaskOutcome.failedCopy ExnKind.remoteError
    ∧ (process_sheet_model ⟨true, ShareResult.ok, false, true, true, true, true, true⟩).2.created = true
    ∧ (process_sheet_model ⟨true, ShareResult.ok, false, true, true, true, true, true⟩).2.deleted = false := by
  decide

/-- Claim C1 (amended): the destination document is deleted exactly when the
task ends in the redaction-failure branch with a successful compensating
`del_spreadsheet`; copy-step failures leave the created destination document
in place, and rename/placeholder-delete failures never fail the task. -/
theorem C1_deletion_iff_redact_failure (o : RemoteOracle) :
    (process_sheet_model o).2.deleted = true
      ↔ (process_sheet_model o).1 = TaskOutcome.failedRedactCleaned := by
  obtain ⟨c, s, cp, g, r, dp, rd, cd⟩ := o
  cases c <;> cases s <;> cases cp <;> cases g <;> cases r <;> cases dp <;>
    cases rd <;> cases cd <;> decide

/-- Claim C2 (counterexample): when the placeholder-delete remote call fails
(its exception is swallowed), the task still terminates successfully, the
destination document is not deleted, and it ends with two records. -/
theorem C2_counterexample :
    (process_sheet_model ⟨true, ShareResult.ok, true, true, true, false, true, true⟩).1
        = TaskOutcome.success
    ∧ (process_sheet_model ⟨true, ShareResult.ok, true, true, true, false, true, true⟩).2.deleted = false
    ∧ DestState.recordCount
        (process_sheet_model ⟨true, ShareResult.ok, true, true, true, false, true, true⟩).2 = 2 := by
  decide

/-- Claim C2 (amended): a task that terminates successfully and whose rename
and placeholder-delete calls succeeded ends with exactly one record in the
destination document: the copied record, with the placeholder deleted. -/
theorem C2_success_one_record (o : RemoteOracle)
    (h1 : (process_sheet_model o).1 = TaskOutcome.success)
    (h2 : o.renameOk = true) (h3 : o.deletePlaceholderOk = true) :
    DestState.recordCount (process_sheet_model o).2 = 1
    ∧ (process_sheet_model o).2.hasCopy = true
    ∧ (process_sheet_model o).2.hasPlaceholder = false := by
  obtain ⟨c, s, cp, g, r, dp, rd, cd⟩ := o
  revert h1 h2 h3
  cases c <;> cases s <;> cases cp <;> cases g <;> cases r <;> cases dp <;>
    cases rd <;> cases cd <;> decide

/-- Claim C2 (witness): the all-success oracle satisfies the hypotheses and
ends with exactly the copied record. -/
theorem C2_success_one_record_witness :
    ((process_sheet_model ⟨true, ShareResult.ok, true, true, true, true, true, true⟩).1
        = TaskOutcome.success
      ∧ (⟨true, ShareResult.ok, true, true, true, true, true, true⟩ : RemoteOracle).renameOk = true
      ∧ (⟨true, ShareResult.ok, true, true, true, true, true, true⟩ : RemoteOracle).deletePlaceholderOk = true)
    ∧ (DestState.recordCount
          (process_sheet_model ⟨true, ShareResult.ok, true, true, true, true, true, true⟩).2 = 1
      ∧ (process_sheet_model ⟨true, ShareResult.ok, true, true, true, true, true, true⟩).2.hasCopy = true
      ∧ (process_sheet_model ⟨true, ShareResult.ok, true, true, true, true, true, true⟩).2.hasPlaceholder = false) :=
  ⟨⟨by decide, by decide, by decide⟩,
    C2_success_one_record ⟨true, ShareResult.ok, true, true, true, true, true, true⟩
      (by decide) (by decide) (by decide)⟩

instance {ε α : Type} [DecidableEq ε] [DecidableEq α] : DecidableEq (Except ε α) := fun x y =>
  match x, y with
  | Except.ok a, Except.ok b =>
    if h : a = b then isTrue (by rw [h]) else isFalse (fun hh => by cases hh; exact h rfl)
  | Except.error a, Except.error b =>
    if h : a = b then isTrue (by rw [h]) else isFalse (fun hh => by cases hh; exact h rfl)
  | Except.ok _, Except.error _ => isFalse (fun hh => by cases hh)
  | Except.error _, Except.ok _ => isFalse (fun hh => by cases hh)

/-- Claim C10 (counterexample): when destination creation fails, the task
does not raise the attribute error out of `process_sheet`; it terminates
through the handled copy-failure path (the dereference of the `None`
result happens inside the copy `try`, so `AttributeError` is caught there). -/
theorem C10_counterexample :
    (process_sheet_model ⟨false, ShareResult.ok, true, true, true, true, true, true⟩).1
        = TaskOutcome.failedCopy ExnKind.attrError
    ∧ (process_sheet_model ⟨false, ShareResult.ok, true, true, true, true, true, true⟩).1
        ≠ TaskOutcome.escaped ExnKind.attrError := by
  decide

/-- Claim C10 (amended): whenever creation fails,
`create_and_share_new_spreadsheet` returns `None`, and `process_sheet`
dereferences it inside the copy-step `try`, so the resulting attribute
error is caught by the copy-failure handler and the task terminates through
that handled path (with a misleading copy-error diagnostic). -/
theorem C10_none_dereference_handled (o : RemoteOracle) (h : o.createOk = false) :
    create_and_share_new_spreadsheet o = Except.ok none
    ∧ (process_sheet_model o).1 = TaskOutcome.failedCopy ExnKind.attrError := by
  obtain ⟨c, s, cp, g, r, dp, rd, cd⟩ := o
  revert h
  cases c <;> cases s <;> cases cp <;> cases g <;> cases r <;> cases dp <;>
    cases rd <;> cases cd <;> decide

/-- Claim C10 (witness): a concrete oracle with failing creation. -/
theorem C10_none_dereference_handled_witness :
    (⟨false, ShareResult.ok, true, true, true, true, true, true⟩ : RemoteOracle).createOk = false
    ∧ (create_and_share_new_spreadsheet ⟨false, ShareResult.ok, true, true, true, true, true, true⟩
          = Except.ok none
      ∧ (process_sheet_model ⟨false, ShareResult.ok, true, true, true, true, true, true⟩).1
          = TaskOutcome.failedCopy ExnKind.attrError) :=
  ⟨by decide,
    C10_none_dereference_handled ⟨false, ShareResult.ok, true, true, true, true, true, true⟩
      (by decide)⟩

theorem find_eq_filter_head {α : Type} (p : α → Bool) (l : List α) :
    l.find? p = (l.filter p).head? := by
  induction l with
  | nil => rfl
  | cons a l ih =>
    cases h : p a
    · rw [List.find?_cons, List.filter_cons, h, ih]
      simp
    · rw [List.find?_cons, List.filter_cons, h]
      simp

/-- Claim C5 (counterexample): with a table whose only row maps `"X"` to the
empty description, the lookup matches that row, yet `translate_workout_name`
returns the source title `"X"` rather than the matched (empty) description —
Python truthiness treats the empty description as absent. -/
theorem C5_counterexample :
    (([⟨"X", "", false⟩] : List SpreadsheetRow).filter
        (fun item => item.original_name == "X")).head? = some ⟨"X", "", false⟩
    ∧ translate_workout_name "X" [⟨"X", "", false⟩] = "X"
    ∧ translate_workout_name "X" [⟨"X", "", false⟩]
        ≠ (SpreadsheetRow.mk "X" "" false).description := by
  refine ⟨rfl, rfl, by decide⟩

/-- Claim C5 (amended): `translate_workout_name` returns the description of
the first matching row when that description is non-empty, and returns the
source title unchanged when no row matches or when the first matching row's
description is the empty string; it is total (never fails). -/
theorem C5_translate_first_match (source_title : String)
    (translated_data : List SpreadsheetRow) :
    translate_workout_name source_title translated_data =
      match (translated_data.filter (fun item => item.original_name == source_title)).head? with
      | none => source_title
      | some e => if e.description == "" then source_title else e.description := by
  unfold translate_workout_name
  rw [find_eq_filter_head]
  cases (translated_data.filter (fun item => item.original_name == source_title)).head? with
  | none => rfl
  | some e => rfl

/-- Claim C6: `should_process_spreadsheet` scans the table in source order,
returns the negation of the skip flag of the first row whose
`original_name` equals the title, and returns `false` when no row
matches. -/
theorem C6_first_match_negated_skip (spreadsheet_title : String)
    (translations : List SpreadsheetRow) :
    should_process_spreadsheet spreadsheet_title translations =
      match (translations.filter (fun t => t.original_name == spreadsheet_title)).head? with
      | none => false
      | some e => !e.skip := by
  induction translations with
  | nil => rfl
  | cons a l ih =>
    cases h : a.original_name == spreadsheet_title
    · simp [should_process_spreadsheet, List.filter_cons, h, ih]
    · simp [should_process_spreadsheet, List.filter_cons, h]

/-- Claim C3: classification marks a snapshot invalid exactly when cell 0
holds the template marker `"Name: "`, or the resolved description contains
`"Foundation 1"`, or every cell value in the snapshot is empty. -/
theorem C3_classify_invalid_iff (canary_cells : Snapshot)
    (h : wfSnapshot canary_cells = true) :
    is_valid_workout canary_cells (get_workout_description canary_cells) = false
      ↔ (get_value_at_location canary_cells 0 = "Name: "
        ∨ containsSub (get_workout_description canary_cells) "Foundation 1" = true
        ∨ ∀ s ∈ flatten_3d_list canary_cells, s = "") := by
  have hval : (match canary_cells.getD 0 [] with
      | [] => ""
      | row :: _ => row.headD "") = get_value_at_location canary_cells 0 := rfl
  unfold is_valid_workout
  rw [hval]
  cases hc : (get_value_at_location canary_cells 0 == "Name: "
      || containsSub (get_workout_description canary_cells) "Foundation 1"
      || !((flatten_3d_list canary_cells).any (fun s => !(s == ""))))
  · simp only [hc, if_false, Bool.false_eq_true]
    constructor
    · intro habs; exact absurd habs (by simp)
    · intro hr
      exfalso
      rw [Bool.or_eq_false_iff, Bool.or_eq_false_iff] at hc
      obtain ⟨⟨h1, h2⟩, h3⟩ := hc
      rcases hr with hr | hr | hr
      · rw [beq_eq_false_iff_ne] at h1; exact h1 hr
      · rw [hr] at h2; simp at h2
      · rw [Bool.not_eq_false'] at h3
        rw [List.any_eq_true] at h3
        obtain ⟨s, hs, hsne⟩ := h3
        have := hr s hs
        rw [this] at hsne
        simp at hsne
  · simp only [hc, if_true]
    constructor
    · intro _
      rw [Bool.or_eq_true, Bool.or_eq_true] at hc
      rcases hc with (hc | hc) | hc
      · exact Or.inl (by rwa [beq_iff_eq] at hc)
      · exact Or.inr (Or.inl hc)
      · refine Or.inr (Or.inr ?_)
        intro s hs
        rw [Bool.not_eq_true', List.any_eq_false] at hc
        have := hc s hs
        simpa using this
    · intro _; trivial

/-- Claim C3 (witness): a concrete new-layout snapshot. -/
theorem C3_classify_invalid_iff_witness :
    wfSnapshot [[["x"]], [["Jane"]], [["Week 1"]], [], []] = true
    ∧ (is_valid_workout [[["x"]], [["Jane"]], [["Week 1"]], [], []]
          (get_workout_description [[["x"]], [["Jane"]], [["Week 1"]], [], []]) = false
        ↔ (get_value_at_location [[["x"]], [["Jane"]], [["Week 1"]], [], []] 0 = "Name: "
          ∨ containsSub (get_workout_description [[["x"]], [["Jane"]], [["Week 1"]], [], []])
              "Foundation 1" = true
          ∨ ∀ s ∈ flatten_3d_list [[["x"]], [["Jane"]], [["Week 1"]], [], []], s = "")) :=
  ⟨by decide, C3_classify_invalid_iff [[["x"]], [["Jane"]], [["Week 1"]], [], []] (by decide)⟩

/-- Claim C4: the description is read from position 2 (B2, new layout) when
cell 0 is non-empty and from position 4 (B4, old layout) when cell 0 is
empty. -/
theorem C4_description_layout (canary_cells : Snapshot)
    (h : wfSnapshot canary_cells = true) :
    (get_value_at_location canary_cells 0 ≠ "" →
        get_workout_description canary_cells = get_value_at_location canary_cells 2)
    ∧ (get_value_at_location canary_cells 0 = "" →
        get_workout_description canary_cells = get_value_at_location canary_cells 4) := by
  unfold get_workout_description
  constructor
  · intro h0
    rw [if_neg]
    simp [h0]
  · intro h0
    rw [if_pos]
    simp [h0]

/-- Claim C4 (witness): a concrete old-layout snapshot (empty cell 0). -/
theorem C4_description_layout_witness :
    wfSnapshot [[], [], [], [["Old Name"]], [["Old Desc"]]] = true
    ∧ ((get_value_at_location [[], [], [], [["Old Name"]], [["Old Desc"]]] 0 ≠ "" →
          get_workout_description [[], [], [], [["Old Name"]], [["Old Desc"]]]
            = get_value_at_location [[], [], [], [["Old Name"]], [["Old Desc"]]] 2)
      ∧ (get_value_at_location [[], [], [], [["Old Name"]], [["Old Desc"]]] 0 = "" →
          get_workout_description [[], [], [], [["Old Name"]], [["Old Desc"]]]
            = get_value_at_location [[], [], [], [["Old Name"]], [["Old Desc"]]] 4)) :=
  ⟨by decide, C4_description_layout [[], [], [], [["Old Name"]], [["Old Desc"]]] (by decide)⟩

/-- Claim C8: redaction issues exactly one B1:D1 range clear when the
new-layout name (position 1) is non-empty, otherwise exactly one B3
single-cell clear when the old-layout name (position 3) is non-empty, and
no call when neither is present. -/
theorem C8_redaction_calls (canary_cells : Snapshot)
    (h : wfSnapshot canary_cells = true) :
    (get_value_at_location canary_cells 1 ≠ "" →
        delete_client_data canary_cells = [RedactCall.batch_update "B1:D1" [["", "", ""]]])
    ∧ (get_value_at_location canary_cells 1 = "" → get_value_at_location canary_cells 3 ≠ "" →
        delete_client_data canary_cells = [RedactCall.update_cell 3 2 ""])
    ∧ (get_value_at_location canary_cells 1 = "" → get_value_at_location canary_cells 3 = "" →
        delete_client_data canary_cells = []) := by
  unfold delete_client_data
  refine ⟨fun h1 => ?_, fun h1 h3 => ?_, fun h1 h3 => ?_⟩
  · rw [if_pos]
    simp [h1]
  · rw [if_neg, if_pos]
    · simp [h3]
    · simp [h1]
  · rw [if_neg, if_neg]
    · simp [h3]
    · simp [h1]

/-- Claim C8 (witness): a concrete snapshot with a new-layout name. -/
theorem C8_redaction_calls_witness :
    wfSnapshot [[], [["Jane"]], [], [["Old"]], []] = true
    ∧ ((get_value_at_location [[], [["Jane"]], [], [["Old"]], []] 1 ≠ "" →
          delete_client_data [[], [["Jane"]], [], [["Old"]], []]
            = [RedactCall.batch_update "B1:D1" [["", "", ""]]])
      ∧ (get_value_at_location [[], [["Jane"]], [], [["Old"]], []] 1 = "" →
          get_value_at_location [[], [["Jane"]], [], [["Old"]], []] 3 ≠ "" →
          delete_client_data [[], [["Jane"]], [], [["Old"]], []]
            = [RedactCall.update_cell 3 2 ""])
      ∧ (get_value_at_location [[], [["Jane"]], [], [["Old"]], []] 1 = "" →
          get_value_at_location [[], [["Jane"]], [], [["Old"]], []] 3 = "" →
          delete_client_data [[], [["Jane"]], [], [["Old"]], []] = [])) :=
  ⟨by decide, C8_redaction_calls [[], [["Jane"]], [], [["Old"]], []] (by decide)⟩

theorem titleAux_length (b : Bool) (cs : List Char) : (titleAux b cs).length = cs.length := by
  induction cs generalizing b with
  | nil => rfl
  | cons c cs ih => simp [titleAux, ih]

theorem pyTitle_length (s : String) : (pyTitle s).length = s.length :=
  titleAux_length false s.data

theorem pySlice_length (s : String) (n : Nat) : (pySlice s n).length = Nat.min n s.length :=
  List.length_take n s.data

/-- Claim C7: the destination title is `description ++ " - " ++ translated
title`, truncated to at most 175 code points before the 1-based position
suffix is appended, then title-cased; its length is exactly the truncated
base length plus the suffix length, hence never exceeds 175 plus the
suffix length (the suffix is never truncated). -/
theorem C7_title_truncation (source_title : String) (sheet_index : Nat)
    (previous_description : String) (translated_data : List SpreadsheetRow) :
    get_dest_spreadsheet_title source_title sheet_index previous_description translated_data
      = pyTitle
          ((if (previous_description ++ " - "
                ++ translate_workout_name source_title translated_data).length > 175
            then pySlice (previous_description ++ " - "
                ++ translate_workout_name source_title translated_data) 175
            else previous_description ++ " - "
                ++ translate_workout_name source_title translated_data)
            ++ " " ++ toString (sheet_index + 1))
    ∧ (get_dest_spreadsheet_title source_title sheet_index previous_description translated_data).length
        = Nat.min (previous_description ++ " - "
              ++ translate_workout_name source_title translated_data).length 175
          + (" " ++ toString (sheet_index + 1)).length
    ∧ (get_dest_spreadsheet_title source_title sheet_index previous_description translated_data).length
        ≤ 175 + (" " ++ toString (sheet_index + 1)).length := by
  have hmain :
      (get_dest_spreadsheet_title source_title sheet_index previous_description translated_data).length
        = Nat.min (previous_description ++ " - "
              ++ translate_workout_name source_title translated_data).length 175
          + (" " ++ toString (sheet_index + 1)).length := by
    unfold get_dest_spreadsheet_title
    rw [pyTitle_length]
    by_cases hlen : (previous_description ++ " - "
        ++ translate_workout_name source_title translated_data).length > 175
    · rw [if_pos hlen]
      simp only [String.length_append, pySlice_length] at hlen ⊢
      have e1 : Nat.min 175 (previous_description.length + " - ".length
          + (translate_workout_name source_title translated_data).length) = 175 :=
        Nat.min_eq_left (Nat.le_of_lt hlen)
      have e2 : Nat.min (previous_description.length + " - ".length
          + (translate_workout_name source_title translated_data).length) 175 = 175 :=
        Nat.min_eq_right (Nat.le_of_lt hlen)
      rw [e1, e2]
      omega
    · rw [if_neg hlen]
      simp only [String.length_append] at hlen ⊢
      have e2 : Nat.min (previous_description.length + " - ".length
          + (translate_workout_name source_title translated_data).length) 175
          = previous_description.length + " - ".length
            + (translate_workout_name source_title translated_data).length :=
        Nat.min_eq_left (by omega)
      rw [e2]
      omega
  refine ⟨rfl, hmain, ?_⟩
  rw [hmain]
  exact Nat.add_le_add_right (Nat.min_le_right _ _) _

theorem retryGo_count_le (succeeds : Nat → Bool) :
    ∀ fuel attempt, (retryGo succeeds attempt fuel).2 ≤ fuel := by
  intro fuel
  induction fuel with
  | zero => intro attempt; simp [retryGo]
  | succ n ih =>
    intro attempt
    cases h : succeeds attempt
    · simp only [retryGo, h, Bool.false_eq_true, if_false]
      exact Nat.succ_le_succ (ih (attempt + 1))
    · simp only [retryGo, h, if_true]
      exact Nat.succ_le_succ (Nat.zero_le n)

/-- Claim C9 (counterexample): not every remote call is wrapped by
`common_retry` — the canary batch-read `get_canary_cells` carries no
decorator (nor does the compensating `del_spreadsheet` call). -/
theorem C9_counterexample :
    RemoteCallSite.mk "get_canary_cells" false ∈ remote_call_sites
    ∧ remote_call_sites.all (fun c => c.wrapped_in_common_retry) = false := by
  constructor
  · exact List.Mem.tail _ (List.Mem.tail _ (List.Mem.tail _ (List.Mem.head _)))
  · rfl

/-- Claim C9 (amended): every `common_retry`-wrapped call is capped at 5
attempts with exponential backoff clamped to [1, 60]: a call failing three
times then succeeding succeeds at attempt 4 (within the cap), a call that
would fail six times surfaces failure after exactly 5 attempts, no oracle
can drive more than 5 attempts, and the wait is always within its floor and
ceiling; however the policy does not cover every remote call
(`get_canary_cells` and the compensating deletion are unwrapped). -/
theorem C9_retry_policy :
    common_retry_exec (fun k => decide (3 < k)) = (some 4, 4)
    ∧ common_retry_exec (fun k => decide (6 < k)) = (none, 5)
    ∧ (∀ succeeds : Nat → Bool, (common_retry_exec succeeds).2 ≤ 5)
    ∧ (∀ attempt_number : Nat,
        1 ≤ common_retry_wait attempt_number ∧ common_retry_wait attempt_number ≤ 60)
    ∧ remote_call_sites.all (fun c => c.wrapped_in_common_retry) = false := by
  refine ⟨rfl, rfl, fun succeeds => retryGo_count_le succeeds 5 1, fun n => ⟨?_, ?_⟩, rfl⟩
  · exact le_max_left _ _
  · exact max_le (by decide) (Nat.min_le_right _ _)
